import Mathlib

/-!
Verification development for the claude-code-proxy gateway
(`src/main.py`, `src/api/endpoints.py`, `src/core/config.py`).

The Python handlers are embedded shallowly: pure computations become Lean
functions, exception-raising code returns explicit result values, and the
JSON bodies exchanged at the HTTP boundary are modelled by a small `Json`
inductive.  Components of the repository that live outside the provided
sources (the request/response converters, the model manager, the stream
translator) are modelled from the specification where a claim requires
them; each such definition is marked `Modelled from the spec:`.
-/

namespace Proxy

/-- A minimal JSON value model, used to talk about the exact shape of
response bodies at the HTTP boundary. -/
inductive Json where
  | null : Json
  | str (s : String) : Json
  | num (n : Int) : Json
  | bool (b : Bool) : Json
  | arr (xs : List Json) : Json
  | obj (fields : List (String × Json)) : Json

/-- A raised FastAPI `HTTPException`: status code plus detail text. -/
structure HTTPExc where
  status_code : Nat
  detail : String
  deriving DecidableEq, Repr

/-- FastAPI's default rendering of an uncaught `HTTPException`:
the JSON body is `{"detail": <detail>}` (no custom exception handler is
registered in `src/main.py`). -/
def renderHTTPExc (e : HTTPExc) : Json :=
  Json.obj [("detail", Json.str e.detail)]

/-- The structured error envelope built on the streaming-setup failure
path of `create_message` (`endpoints.py` lines 117-120):
`{"type": "error", "error": {"type": k, "message": m}}`. -/
def errorEnvelope (k m : String) : Json :=
  Json.obj [("type", Json.str "error"),
            ("error", Json.obj [("type", Json.str k), ("message", Json.str m)])]

/-- Whether a JSON value has the error-envelope shape
`{"type": "error", "error": {"type": _, "message": _}}`. -/
def isErrorEnvelope : Json → Bool
  | Json.obj [("type", Json.str "error"),
              ("error", Json.obj [("type", Json.str _), ("message", Json.str _)])] => true
  | _ => false

/-! ## Token counting (`count_tokens`, endpoints.py lines 138-173)

The request model (`ClaudeTokenCountRequest`) carries an optional system
prompt (a string or a list of blocks) and a list of messages whose content
is `None`, a string, or a list of blocks.  The handler only inspects
whether a block has a `text` attribute, so blocks are modelled as either
text-bearing or not. -/

/-- A content block as seen by `count_tokens`: either a block carrying a
`text` attribute (e.g. a text block) or any other block shape. -/
inductive CountBlock where
  | text (s : String) : CountBlock
  | other : CountBlock
  deriving DecidableEq, Repr

/-- Message content: `None`, a plain string, or a list of blocks. -/
inductive MsgContent where
  | none : MsgContent
  | str (s : String) : MsgContent
  | blocks (bs : List CountBlock) : MsgContent
  deriving DecidableEq, Repr

/-- The parts of a `ClaudeTokenCountRequest` that `count_tokens` reads. -/
structure TokenCountRequest where
  system : Option (Sum String (List CountBlock))
  messages : List MsgContent
  deriving DecidableEq, Repr

/-- Characters contributed by one system block: `hasattr(block, "text")`
keeps the text length, anything else contributes nothing. -/
def systemBlockChars : CountBlock → Nat
  | CountBlock.text s => s.length
  | CountBlock.other => 0

/-- Characters contributed by the system prompt (endpoints.py 147-153). -/
def systemChars : Option (Sum String (List CountBlock)) → Nat
  | Option.none => 0
  | Option.some (Sum.inl s) => s.length
  | Option.some (Sum.inr bs) => (bs.map systemBlockChars).sum

/-- Characters contributed by one message block:
`getattr(block, "text", None) is not None` keeps the text length. -/
def msgBlockChars : CountBlock → Nat
  | CountBlock.text s => s.length
  | CountBlock.other => 0

/-- Characters contributed by one message's content (endpoints.py 156-164). -/
def msgChars : MsgContent → Nat
  | MsgContent.none => 0
  | MsgContent.str s => s.length
  | MsgContent.blocks bs => (bs.map msgBlockChars).sum

/-- Total character count accumulated by the handler. -/
def totalChars (req : TokenCountRequest) : Nat :=
  systemChars req.system + (req.messages.map msgChars).sum

/-- The `count_tokens` estimate: `max(1, total_chars // 4)`
(endpoints.py line 167). -/
def count_tokens (req : TokenCountRequest) : Nat :=
  max 1 (totalChars req / 4)

/-- Keep only the text-bearing blocks of a block list. -/
def filterTextBlocks (bs : List CountBlock) : List CountBlock :=
  bs.filter (fun b => b matches CountBlock.text _)

/-- Drop the blocks that carry no text from one message's content. -/
def dropNonTextContent : MsgContent → MsgContent
  | MsgContent.none => MsgContent.none
  | MsgContent.str s => MsgContent.str s
  | MsgContent.blocks bs => MsgContent.blocks (filterTextBlocks bs)

/-- Drop the blocks that carry no text from every block list of a request;
used to state that non-text blocks contribute nothing to the estimate. -/
def dropNonTextBlocks (req : TokenCountRequest) : TokenCountRequest :=
  { system :=
      match req.system with
      | Option.none => Option.none
      | Option.some (Sum.inl s) => Option.some (Sum.inl s)
      | Option.some (Sum.inr bs) => Option.some (Sum.inr (filterTextBlocks bs))
    messages := req.messages.map dropNonTextContent }

/-! ## Header masking (`create_message`, endpoints.py lines 66-69) -/

/-- Whether a header key is one of the three keys whose value the debug
log keeps unmasked: `k in ("Authorization", "x-api-key", "meta-data")`. -/
def keptHeaderKey (k : String) : Bool :=
  k = "Authorization" || k = "x-api-key" || k = "meta-data"

/-- The masked header map logged by `create_message`: the original value
for the kept keys, the literal `"*****"` for every other key. -/
def maskedHeaders (hs : List (String × String)) : List (String × String) :=
  hs.map (fun kv => (kv.1, if keptHeaderKey kv.1 then kv.2 else "*****"))

/-! ## Client API key validation (`validate_api_key`, endpoints.py 42-59,
and `Config.validate_client_api_key`, config.py 63-70) -/

/-- Python truthiness of an optional string: `None` and `""` are falsy. -/
def truthy : Option String → Bool
  | Option.none => false
  | Option.some s => s ≠ ""

/-- Whether the second character list starts with the first (the
pattern). -/
def charsStartWith : List Char → List Char → Bool
  | [], _ => true
  | _ :: _, [] => false
  | p :: ps, c :: cs => p = c && charsStartWith ps cs

/-- Whether the pattern `pat` occurs anywhere in the character list. -/
def charsContains (l pat : List Char) : Bool :=
  match l with
  | [] => charsStartWith pat []
  | c :: cs => charsStartWith pat (c :: cs) || charsContains cs pat

/-- Whether `s` starts with `pre` (models Python's `str.startswith`). -/
def strStartsWith (s pre : String) : Bool :=
  charsStartWith pre.data s.data

/-- ASCII lower-casing of a string (models `str.lower` on the ASCII
model identifiers involved). -/
def lowerStr (s : String) : String :=
  String.mk (s.data.map Char.toLower)

/-- Replace every (left-to-right, non-overlapping) occurrence of `pat` in
the character list, with enough fuel to scan the whole list; models
Python's `str.replace`. -/
def replaceAllChars (pat rep : List Char) : Nat → List Char → List Char
  | 0, l => l
  | _ + 1, [] => []
  | fuel + 1, c :: rest =>
      if charsStartWith pat (c :: rest) ∧ pat ≠ [] then
        rep ++ replaceAllChars pat rep fuel ((c :: rest).drop pat.length)
      else
        c :: replaceAllChars pat rep fuel rest

/-- Python's `s.replace(pat, rep)` (all occurrences) on Lean strings. -/
def pyReplace (s pat rep : String) : String :=
  String.mk (replaceAllChars pat.data rep.data (s.data.length + 1) s.data)

/-- The client key extracted by `validate_api_key` (endpoints.py 44-50):
the `x-api-key` header when truthy, else — when `Authorization` is truthy
and starts with `"Bearer "` — `authorization.replace("Bearer ", "")`,
else `None`. -/
def extractClientKey (xApiKey authorization : Option String) : Option String :=
  if truthy xApiKey then xApiKey
  else if truthy authorization ∧ strStartsWith (authorization.getD "") "Bearer " then
    Option.some (pyReplace (authorization.getD "") "Bearer " "")
  else Option.none

/-- `Config.validate_client_api_key` (config.py 63-70). -/
def validate_client_api_key (anthropicKey : Option String) (clientKey : String) : Bool :=
  if ¬ truthy anthropicKey then true
  else clientKey = anthropicKey.getD ""

/-- Outcome of the `validate_api_key` dependency: either the request
passes, or an `HTTPException` is raised. -/
inductive AuthResult where
  | ok : AuthResult
  | raised (e : HTTPExc) : AuthResult
  deriving DecidableEq, Repr

/-- `validate_api_key` (endpoints.py 42-59): skip validation when
`config.anthropic_api_key` is falsy; otherwise raise 401 when the
extracted client key is falsy or fails `validate_client_api_key`. -/
def validate_api_key (anthropicKey xApiKey authorization : Option String) : AuthResult :=
  let clientKey := extractClientKey xApiKey authorization
  if ¬ truthy anthropicKey then AuthResult.ok
  else if ¬ truthy clientKey ∨
      ¬ validate_client_api_key anthropicKey (clientKey.getD "") then
    AuthResult.raised ⟨401, "Invalid API key. Please provide a valid Anthropic API key."⟩
  else AuthResult.ok

/-- The extraction the claim describes: the `Authorization` value after a
`"Bearer "` prefix (suffix after the prefix), rather than the
replace-all the code performs.  Kept for comparison with
`extractClientKey`. -/
def extractClientKeySpec (xApiKey authorization : Option String) : Option String :=
  if truthy xApiKey then xApiKey
  else if truthy authorization ∧ strStartsWith (authorization.getD "") "Bearer " then
    Option.some (String.mk ((authorization.getD "").data.drop "Bearer ".data.length))
  else Option.none

/-! ## The `/v1/messages` handler (`create_message`, endpoints.py 62-135)

The backend calls (`create_chat_completion_stream`,
`create_chat_completion`) live outside the provided sources; only their
outcome matters to the handler's control flow, so each call is represented
by its outcome: success, a raised `HTTPException`, or a raised generic
exception carrying its `str(e)` text.  `classify_openai_error` (also
outside the sources) returns a message string and is passed in as a
function parameter. -/

/-- Outcome of a backend call as observed by the handler. -/
inductive CallOutcome where
  | ok : CallOutcome
  | httpExc (e : HTTPExc) : CallOutcome
  | exc (msg : String) : CallOutcome
  deriving DecidableEq, Repr

/-- What `create_message` hands back to the framework. -/
inductive CreateMessageResult where
  /-- A `StreamingResponse` wrapping the translated stream. -/
  | streaming : CreateMessageResult
  /-- A `JSONResponse` with an explicit status code and body
  (the streaming-setup error path, endpoints.py 117-121). -/
  | jsonError (status : Nat) (body : Json) : CreateMessageResult
  /-- The converted non-streaming Claude response. -/
  | claudeResponse (body : Json) : CreateMessageResult
  /-- A raised `HTTPException`, rendered by FastAPI as `{"detail": ...}`. -/
  | raised (e : HTTPExc) : CreateMessageResult

/-- The body, if any, that the framework serializes to the client for a
given handler result (a `StreamingResponse` has no single JSON body). -/
def responseBody : CreateMessageResult → Option Json
  | CreateMessageResult.streaming => Option.none
  | CreateMessageResult.jsonError _ b => Option.some b
  | CreateMessageResult.claudeResponse b => Option.some b
  | CreateMessageResult.raised e => Option.some (renderHTTPExc e)

/-- `create_message` (endpoints.py 62-135).  `classify` stands for
`classify_openai_error`; `claudeBody` for the body produced by
`convert_openai_to_claude_response` on success; `disconnected` for
`await http_request.is_disconnected()`; `streamSetup` and `nonStreamCall`
for the outcomes of the two backend calls.  The outer `except
HTTPException: raise` re-raises, and the outer `except Exception` raises
`HTTPException(500, classify_openai_error(str(e)))`. -/
def create_message (classify : String → String) (stream disconnected : Bool)
    (streamSetup nonStreamCall : CallOutcome) (claudeBody : Json) :
    CreateMessageResult :=
  if disconnected then
    CreateMessageResult.raised ⟨499, "Client disconnected"⟩
  else if stream then
    match streamSetup with
    | CallOutcome.ok => CreateMessageResult.streaming
    | CallOutcome.httpExc e =>
        CreateMessageResult.jsonError e.status_code
          (errorEnvelope "api_error" (classify e.detail))
    | CallOutcome.exc m => CreateMessageResult.raised ⟨500, classify m⟩
  else
    match nonStreamCall with
    | CallOutcome.ok => CreateMessageResult.claudeResponse claudeBody
    | CallOutcome.httpExc e => CreateMessageResult.raised e
    | CallOutcome.exc m => CreateMessageResult.raised ⟨500, classify m⟩

/-! ## `count_tokens` error path and `test_connection`
(endpoints.py 171-173 and 188-224) -/

/-- The `count_tokens` handler with its `except Exception` branch
(endpoints.py 171-173): on an exception `e` it raises
`HTTPException(500, str(e))`; otherwise it returns the estimate. -/
def count_tokens_handler (req : TokenCountRequest) (err : Option String) :
    Sum HTTPExc Json :=
  match err with
  | Option.some m => Sum.inl ⟨500, m⟩
  | Option.none => Sum.inr (Json.obj [("input_tokens", Json.num (count_tokens req))])

/-- The error body `test_connection` returns on failure
(endpoints.py 211-224): `str(e)` is placed verbatim in the `message`
field.  `timestamp` stands for `datetime.now().isoformat()`. -/
def test_connection_error_body (excText timestamp : String) : Json :=
  Json.obj
    [("status", Json.str "failed"),
     ("error_type", Json.str "API Error"),
     ("message", Json.str excText),
     ("timestamp", Json.str timestamp),
     ("suggestions", Json.arr
        [Json.str "Check your OPENAI_API_KEY is valid",
         Json.str "Verify your API key has the necessary permissions",
         Json.str "Check if you have reached rate limits"])]

/-- The `message` field of a JSON object, if present (first match). -/
def messageField : Json → Option Json
  | Json.obj fields =>
      (fields.find? (fun kv => kv.1 = "message")).map (fun kv => kv.2)
  | _ => Option.none

/-! ## Model routing and client selection
(`create_message` lines 74-83; the router itself is outside the sources) -/

/-- Whether `sub` occurs as a substring of `s` (models Python's
`sub in s`). -/
def containsSub (s sub : String) : Bool :=
  charsContains s.data sub.data

/-- The tier configuration from `Config` (config.py 38-41). -/
structure TierConfig where
  big_model : String
  middle_model : String
  small_model : String
  deriving DecidableEq, Repr

/-- Modelled from the spec: the ModelRouter (`model_manager`, not among
the provided sources) maps a caller model identifier by case-insensitive
containment of size hints — an identifier containing `"haiku"` routes to
the small tier, `"sonnet"` to the middle tier, `"opus"` to the big tier —
and unmatched identifiers default to the middle tier
(spec §4.1; tier-to-hint pairing per `src/main.py` lines 29-31). -/
def mapModel (cfg : TierConfig) (clientModel : String) : String :=
  let m := lowerStr clientModel
  if containsSub m "haiku" then cfg.small_model
  else if containsSub m "sonnet" then cfg.middle_model
  else if containsSub m "opus" then cfg.big_model
  else cfg.middle_model

/-- Which pre-created backend client the handler uses. -/
inductive ClientChoice where
  | smallClient : ClientChoice
  | mainClient : ClientChoice
  deriving DecidableEq, Repr

/-- Client selection (endpoints.py 79-83): the small-model client exactly
when the routed backend model equals `config.small_model`. -/
def selectClient (cfg : TierConfig) (openaiModel : String) : ClientChoice :=
  if openaiModel = cfg.small_model then ClientChoice.smallClient
  else ClientChoice.mainClient

/-! ## Max-token clamping (config.py 31-32; the translator that applies
the bounds is outside the provided sources) -/

/-- Modelled from the spec: the RequestTranslator
(`convert_claude_to_openai`, not among the provided sources) clamps the
requested max-output-tokens value into the configured
`[min_tokens_limit, max_tokens_limit]` bounds instead of rejecting it
(spec §4.2, §8 "Clamping"). -/
def clampMaxTokens (minLimit maxLimit v : Nat) : Nat :=
  min (max v minLimit) maxLimit

/-! ## Stream translation (spec §4.4; `convert_openai_streaming_to_claude_with_cancellation`
is outside the provided sources, so the state machine is modelled from the
specification) -/

/-- The kind of an outbound content block. -/
inductive BlockKind where
  | text : BlockKind
  | toolUse : BlockKind
  deriving DecidableEq, Repr

/-- Outbound Protocol-A streaming events (spec §3): block lifecycle events
carry the block index. -/
inductive StreamEvent where
  | messageStart : StreamEvent
  | blockStart (idx : Nat) (kind : BlockKind) : StreamEvent
  | blockDelta (idx : Nat) (payload : String) : StreamEvent
  | blockStop (idx : Nat) : StreamEvent
  | messageDelta (stopReason : String) : StreamEvent
  | messageStop : StreamEvent
  | errorEvent (kind msg : String) : StreamEvent
  deriving DecidableEq, Repr

/-- An inbound Protocol-B content chunk: an incremental text fragment, or
a tool-call fragment routed by call id (spec §3). -/
inductive Chunk where
  | text (s : String) : Chunk
  | tool (id : String) (frag : String) : Chunk
  deriving DecidableEq, Repr

/-- How an inbound chunk sequence ends: a terminal finish-reason chunk,
an upstream error, or client cancellation (spec §4.4). -/
inductive StreamEnd where
  | finished (reason : String) : StreamEnd
  | upstreamError (msg : String) : StreamEnd
  | cancelled : StreamEnd
  deriving DecidableEq, Repr

/-- The currently open content block: its index, kind, and — for a
tool-use block — the backend call id it is keyed by. -/
structure OpenBlock where
  idx : Nat
  kind : BlockKind
  toolId : Option String
  deriving DecidableEq, Repr

/-- Per-stream translator state: the next block index to assign and the
currently open block, if any. -/
structure StreamState where
  nextIdx : Nat
  openBlock : Option OpenBlock
  deriving DecidableEq, Repr

/-- The translator's initial state. -/
def initState : StreamState := ⟨0, Option.none⟩

/-- Modelled from the spec: one step of the StreamTranslator state
machine (spec §4.4).  A text fragment is a delta on the open block,
opening a text block at the next index if none is open; a tool fragment
with the open block's call id is a delta on it; a tool fragment with a
new call id closes any open block and opens a tool-use block at the next
index. -/
def step (st : StreamState) : Chunk → StreamState × List StreamEvent
  | Chunk.text s =>
    match st.openBlock with
    | Option.some ob => (st, [StreamEvent.blockDelta ob.idx s])
    | Option.none =>
        (⟨st.nextIdx + 1, Option.some ⟨st.nextIdx, BlockKind.text, Option.none⟩⟩,
         [StreamEvent.blockStart st.nextIdx BlockKind.text,
          StreamEvent.blockDelta st.nextIdx s])
  | Chunk.tool id frag =>
    match st.openBlock with
    | Option.some ob =>
        if ob.kind = BlockKind.toolUse ∧ ob.toolId = Option.some id then
          (st, [StreamEvent.blockDelta ob.idx frag])
        else
          (⟨st.nextIdx + 1, Option.some ⟨st.nextIdx, BlockKind.toolUse, Option.some id⟩⟩,
           [StreamEvent.blockStop ob.idx,
            StreamEvent.blockStart st.nextIdx BlockKind.toolUse])
    | Option.none =>
        (⟨st.nextIdx + 1, Option.some ⟨st.nextIdx, BlockKind.toolUse, Option.some id⟩⟩,
         [StreamEvent.blockStart st.nextIdx BlockKind.toolUse])

/-- Modelled from the spec: the fixed stop-reason table (spec §4.3);
unknown reasons map to `"end_turn"`. -/
def mapStopReason (reason : String) : String :=
  if reason = "stop" then "end_turn"
  else if reason = "length" then "max_tokens"
  else if reason = "tool_calls" then "tool_use"
  else "end_turn"

/-- The synthetic close for the currently open block, if any. -/
def closeEvents (st : StreamState) : List StreamEvent :=
  match st.openBlock with
  | Option.some ob => [StreamEvent.blockStop ob.idx]
  | Option.none => []

/-- Modelled from the spec: terminal handling (spec §4.4).  On a finish
chunk, close the open block and emit message-delta/message-stop; on
upstream error, close the open block and surface a Protocol-A error
event; on cancellation, close the open block and emit a terminal event
reflecting cancellation. -/
def finalize (st : StreamState) : StreamEnd → List StreamEvent
  | StreamEnd.finished reason =>
      closeEvents st ++ [StreamEvent.messageDelta (mapStopReason reason),
                         StreamEvent.messageStop]
  | StreamEnd.upstreamError msg =>
      closeEvents st ++ [StreamEvent.errorEvent "api_error" msg,
                         StreamEvent.messageStop]
  | StreamEnd.cancelled =>
      closeEvents st ++ [StreamEvent.messageDelta "end_turn",
                         StreamEvent.messageStop]

/-- Run the translator over a chunk list, threading the state and
concatenating the emitted events. -/
def runChunks (st : StreamState) : List Chunk → StreamState × List StreamEvent
  | [] => (st, [])
  | c :: cs =>
      let sc := step st c
      let rest := runChunks sc.1 cs
      (rest.1, sc.2 ++ rest.2)

/-- Modelled from the spec: the full outbound event sequence for an
inbound chunk sequence and its ending — message-open, the translated
chunk events, then the synthetic close and terminal events (spec §4.4). -/
def translateStream (chunks : List Chunk) (ending : StreamEnd) : List StreamEvent :=
  let run := runChunks initState chunks
  StreamEvent.messageStart :: (run.2 ++ finalize run.1 ending)

/-- The indices of the content-block-open events of a sequence, in order. -/
def opensOf (evs : List StreamEvent) : List Nat :=
  evs.filterMap (fun e =>
    match e with
    | StreamEvent.blockStart i _ => Option.some i
    | _ => Option.none)

/-- The indices of the content-block-close events of a sequence, in order. -/
def closesOf (evs : List StreamEvent) : List Nat :=
  evs.filterMap (fun e =>
    match e with
    | StreamEvent.blockStop i => Option.some i
    | _ => Option.none)

/-- 1 when a block is open, 0 otherwise. -/
def openCount (st : StreamState) : Nat :=
  match st.openBlock with
  | Option.some _ => 1
  | Option.none => 0

theorem opensOf_append (a b : List StreamEvent) :
    opensOf (a ++ b) = opensOf a ++ opensOf b := by
  simp [opensOf]

theorem closesOf_append (a b : List StreamEvent) :
    closesOf (a ++ b) = closesOf a ++ closesOf b := by
  simp [closesOf]

theorem step_inv (st : StreamState) (c : Chunk) :
    ∃ k : Nat,
      (step st c).1.nextIdx = st.nextIdx + k ∧
      opensOf (step st c).2 = List.range' st.nextIdx k ∧
      (closesOf (step st c).2).length + openCount (step st c).1 =
        k + openCount st := by
  cases c with
  | text s =>
    cases h : st.openBlock with
    | none => exact ⟨1, by simp [step, h, opensOf, closesOf, openCount]⟩
    | some ob => exact ⟨0, by simp [step, h, opensOf, closesOf, openCount]⟩
  | tool id frag =>
    cases h : st.openBlock with
    | none => exact ⟨1, by simp [step, h, opensOf, closesOf, openCount]⟩
    | some ob =>
      by_cases hc : ob.kind = BlockKind.toolUse ∧ ob.toolId = Option.some id
      · exact ⟨0, by simp [step, h, hc, opensOf, closesOf, openCount]⟩
      · exact ⟨1, by simp [step, h, hc, opensOf, closesOf, openCount]⟩

theorem runChunks_inv (cs : List Chunk) : ∀ st : StreamState,
    ∃ k : Nat,
      (runChunks st cs).1.nextIdx = st.nextIdx + k ∧
      opensOf (runChunks st cs).2 = List.range' st.nextIdx k ∧
      (closesOf (runChunks st cs).2).length + openCount (runChunks st cs).1 =
        k + openCount st := by
  induction cs with
  | nil => intro st; exact ⟨0, by simp [runChunks, opensOf, closesOf]⟩
  | cons c cs ih =>
    intro st
    obtain ⟨k1, e1, h1, g1⟩ := step_inv st c
    obtain ⟨k2, e2, h2, g2⟩ := ih (step st c).1
    refine ⟨k1 + k2, ?_, ?_, ?_⟩
    · simp only [runChunks]; omega
    · simp only [runChunks, opensOf_append, h1, h2, e1]
      simpa [Nat.add_comm] using List.range'_append_1 st.nextIdx k1 k2
    · simp only [runChunks, closesOf_append, List.length_append]
      omega

theorem opensOf_finalize (st : StreamState) (e : StreamEnd) :
    opensOf (finalize st e) = [] := by
  cases e <;> cases h : st.openBlock <;>
    simp [finalize, closeEvents, h, opensOf]

theorem closesOf_finalize (st : StreamState) (e : StreamEnd) :
    (closesOf (finalize st e)).length = openCount st := by
  cases e <;> cases h : st.openBlock <;>
    simp [finalize, closeEvents, h, closesOf, openCount]

theorem opensOf_cons_messageStart (l : List StreamEvent) :
    opensOf (StreamEvent.messageStart :: l) = opensOf l := by
  simp [opensOf]

theorem closesOf_cons_messageStart (l : List StreamEvent) :
    closesOf (StreamEvent.messageStart :: l) = closesOf l := by
  simp [closesOf]

/-- C8: for every outbound event sequence produced by the stream
translator — whether the inbound sequence ends in a finish chunk, an
upstream error, or client cancellation — the number of
content-block-open events equals the number of content-block-close
events, and the open indices are exactly `0, 1, ..., n-1` in order:
strictly increasing from zero with no gaps and no index reused. -/
theorem c8_stream_block_accounting (chunks : List Chunk) (ending : StreamEnd) :
    (opensOf (translateStream chunks ending)).length =
      (closesOf (translateStream chunks ending)).length ∧
    opensOf (translateStream chunks ending) =
      List.range (opensOf (translateStream chunks ending)).length := by
  obtain ⟨k, e, h, g⟩ := runChunks_inv chunks initState
  have ho : opensOf (translateStream chunks ending) = List.range' 0 k := by
    simp only [translateStream, opensOf_cons_messageStart, opensOf_append, h,
      opensOf_finalize, List.append_nil]
    rfl
  have hc : (closesOf (translateStream chunks ending)).length = k := by
    simp only [translateStream, closesOf_cons_messageStart, closesOf_append,
      List.length_append, closesOf_finalize]
    have h0 : openCount initState = 0 := rfl
    omega
  refine ⟨?_, ?_⟩
  · rw [ho, hc, List.length_range']
  · rw [ho, List.length_range', List.range_eq_range']

/-- Blocks without text contribute nothing to a character sum. -/
theorem sum_filter_text (f : CountBlock → Nat) (hf : f CountBlock.other = 0)
    (bs : List CountBlock) :
    ((filterTextBlocks bs).map f).sum = (bs.map f).sum := by
  induction bs with
  | nil => rfl
  | cons b bs ih => cases b <;> simp [filterTextBlocks, hf, ih] <;>
      simpa [filterTextBlocks] using ih

theorem msgChars_dropNonTextContent (c : MsgContent) :
    msgChars (dropNonTextContent c) = msgChars c := by
  cases c with
  | none => rfl
  | str s => rfl
  | blocks bs =>
      simpa [dropNonTextContent, msgChars] using
        sum_filter_text msgBlockChars rfl bs

/-- C5: the token-count endpoint returns the characters-per-token
estimate: the character lengths of the system prompt (string form or
text blocks) and of every message's string content or text-bearing
blocks are summed, integer-divided by 4, floored at 1; the estimate is
always at least 1, and dropping the non-text blocks from the request
does not change it. -/
theorem c5_count_tokens_heuristic (req : TokenCountRequest) :
    count_tokens req =
      max 1 ((systemChars req.system + (req.messages.map msgChars).sum) / 4) ∧
    1 ≤ count_tokens req ∧
    count_tokens (dropNonTextBlocks req) = count_tokens req := by
  refine ⟨rfl, le_max_left 1 _, ?_⟩
  have hsys : systemChars (dropNonTextBlocks req).system = systemChars req.system := by
    cases hs : req.system with
    | none => simp [dropNonTextBlocks, hs]
    | some v =>
      cases v with
      | inl s => simp [dropNonTextBlocks, hs]
      | inr bs =>
          simpa [dropNonTextBlocks, hs, systemChars] using
            sum_filter_text systemBlockChars rfl bs
  have hmsg : ((dropNonTextBlocks req).messages.map msgChars).sum =
      (req.messages.map msgChars).sum := by
    have hfun : msgChars ∘ dropNonTextContent = msgChars :=
      funext msgChars_dropNonTextContent
    simp [dropNonTextBlocks, List.map_map, hfun]
  simp [count_tokens, totalChars, hsys, hmsg]

/-- C9: the debug-logged header map keeps the original value of exactly
the headers whose key is `Authorization`, `x-api-key`, or `meta-data`,
and replaces every other header's value with the literal `"*****"` — the
credential-bearing headers are the ones logged unmasked. -/
theorem c9_header_masking (hs : List (String × String)) (k v : String)
    (hmem : (k, v) ∈ hs) :
    (keptHeaderKey k = true → (k, v) ∈ maskedHeaders hs) ∧
    (keptHeaderKey k = false →
      (k, "*****") ∈ maskedHeaders hs ∧
      ∀ w, (k, w) ∈ maskedHeaders hs → w = "*****") := by
  constructor
  · intro hk
    refine List.mem_map.2 ⟨(k, v), hmem, ?_⟩
    simp [hk]
  · intro hk
    constructor
    · refine List.mem_map.2 ⟨(k, v), hmem, ?_⟩
      simp [hk]
    · intro w hw
      obtain ⟨⟨a, b⟩, _, hab⟩ := List.mem_map.1 hw
      obtain ⟨ha, hb⟩ := Prod.mk.injEq .. ▸ hab
      subst ha
      simp [hk] at hb
      exact hb.symm

/-- C9 witness: a credential header keeps its value, an ordinary header
is replaced by `"*****"`, on a concrete header list. -/
theorem c9_witness :
    (keptHeaderKey "x-api-key" = true →
      ("x-api-key", "sk-secret") ∈
        maskedHeaders [("x-api-key", "sk-secret"), ("host", "example.com")]) ∧
    (keptHeaderKey "x-api-key" = false →
      ("x-api-key", "*****") ∈
        maskedHeaders [("x-api-key", "sk-secret"), ("host", "example.com")] ∧
      ∀ w, ("x-api-key", w) ∈
          maskedHeaders [("x-api-key", "sk-secret"), ("host", "example.com")] →
        w = "*****") :=
  c9_header_masking [("x-api-key", "sk-secret"), ("host", "example.com")]
    "x-api-key" "sk-secret" (by simp)

/-- C7: the requested max-output-tokens value is clamped into the
configured `[min_tokens_limit, max_tokens_limit]` bounds in the
translated backend request: a value above the ceiling becomes the
ceiling, a value below the floor becomes the floor, and the clamped
value always lies within the bounds (no value is rejected). -/
theorem c7_clamp_max_tokens (minLimit maxLimit v : Nat)
    (h : minLimit ≤ maxLimit) :
    (maxLimit < v → clampMaxTokens minLimit maxLimit v = maxLimit) ∧
    (v < minLimit → clampMaxTokens minLimit maxLimit v = minLimit) ∧
    (minLimit ≤ v → v ≤ maxLimit → clampMaxTokens minLimit maxLimit v = v) ∧
    minLimit ≤ clampMaxTokens minLimit maxLimit v ∧
    clampMaxTokens minLimit maxLimit v ≤ maxLimit := by
  unfold clampMaxTokens
  omega

/-- C7 witness: with the default bounds 100/4096, a request for 5000
tokens is clamped to exactly 4096 and stays within bounds. -/
theorem c7_witness :
    (100 : Nat) ≤ 4096 ∧
    ((4096 : Nat) < 5000 → clampMaxTokens 100 4096 5000 = 4096) ∧
    (100 : Nat) ≤ clampMaxTokens 100 4096 5000 ∧
    clampMaxTokens 100 4096 5000 ≤ 4096 :=
  ⟨by omega,
   ⟨(c7_clamp_max_tokens 100 4096 5000 (by omega)).1,
    (c7_clamp_max_tokens 100 4096 5000 (by omega)).2.2.2.1,
    (c7_clamp_max_tokens 100 4096 5000 (by omega)).2.2.2.2⟩⟩

/-- C6: a caller model identifier containing the size hint `"haiku"`
(case-insensitively) routes to the configured small-tier model, and the
handler then selects the small-model backend client; an identifier
matching no size hint defaults to the middle tier. -/
theorem c6_model_routing (cfg : TierConfig) (clientModel : String) :
    (containsSub (lowerStr clientModel) "haiku" = true →
      mapModel cfg clientModel = cfg.small_model ∧
      selectClient cfg (mapModel cfg clientModel) = ClientChoice.smallClient) ∧
    (containsSub (lowerStr clientModel) "haiku" = false →
      containsSub (lowerStr clientModel) "sonnet" = false →
      containsSub (lowerStr clientModel) "opus" = false →
      mapModel cfg clientModel = cfg.middle_model) := by
  constructor
  · intro hk
    have hm : mapModel cfg clientModel = cfg.small_model := by
      simp [mapModel, hk]
    refine ⟨hm, ?_⟩
    rw [hm]
    simp [selectClient]
  · intro h1 h2 h3
    simp [mapModel, h1, h2, h3]

/-- C6 witness: `"claude-3-5-haiku-20241022"` routes to the configured
small model and the small client; `"my-custom-model"` matches no hint
and routes to the middle model. -/
theorem c6_witness :
    (mapModel ⟨"gpt-4o", "gpt-4o", "gpt-4o-mini"⟩ "claude-3-5-haiku-20241022" =
        "gpt-4o-mini" ∧
      selectClient ⟨"gpt-4o", "gpt-4o", "gpt-4o-mini"⟩
          (mapModel ⟨"gpt-4o", "gpt-4o", "gpt-4o-mini"⟩ "claude-3-5-haiku-20241022") =
        ClientChoice.smallClient) ∧
    mapModel ⟨"gpt-4o", "gpt-4o", "gpt-4o-mini"⟩ "my-custom-model" = "gpt-4o" :=
  ⟨(c6_model_routing ⟨"gpt-4o", "gpt-4o", "gpt-4o-mini"⟩
      "claude-3-5-haiku-20241022").1 (by decide),
   (c6_model_routing ⟨"gpt-4o", "gpt-4o", "gpt-4o-mini"⟩
      "my-custom-model").2 (by decide) (by decide) (by decide)⟩

theorem isErrorEnvelope_errorEnvelope (k m : String) :
    isErrorEnvelope (errorEnvelope k m) = true := rfl

theorem isErrorEnvelope_renderHTTPExc (e : HTTPExc) :
    isErrorEnvelope (renderHTTPExc e) = false := rfl

/-- C1 counterexample: a non-streaming `/v1/messages` failure (a generic
exception from the backend call) is surfaced as a raised
`HTTPException(500, ...)`, whose rendered body is `{"detail": <text>}` —
not the `{"type": "error", "error": {...}}` envelope shape the claim
requires on both paths. -/
theorem c1_counterexample :
    create_message (fun s => s) false false CallOutcome.ok
        (CallOutcome.exc "boom") Json.null =
      CreateMessageResult.raised ⟨500, "boom"⟩ ∧
    responseBody (create_message (fun s => s) false false CallOutcome.ok
        (CallOutcome.exc "boom") Json.null) =
      Option.some (Json.obj [("detail", Json.str "boom")]) ∧
    isErrorEnvelope (Json.obj [("detail", Json.str "boom")]) = false :=
  ⟨rfl, rfl, rfl⟩

/-- C1 (amended): only a streaming-path failure raised as an
`HTTPException` while initiating the backend stream is returned as a
JSON body of the envelope shape `{"type": "error", "error": {"type":
"api_error", "message": <text>}}`; every other `/v1/messages` failure —
including every non-streaming failure — propagates as a raised
`HTTPException`, whose body is `{"detail": <text>}`, which does not have
the envelope shape. -/
theorem c1_error_envelope_amended (classify : String → String)
    (stream disconnected : Bool) (streamSetup nonStreamCall : CallOutcome)
    (claudeBody : Json) :
    (∀ status body,
      create_message classify stream disconnected streamSetup nonStreamCall
          claudeBody = CreateMessageResult.jsonError status body →
      isErrorEnvelope body = true) ∧
    (∀ e,
      create_message classify stream disconnected streamSetup nonStreamCall
          claudeBody = CreateMessageResult.raised e →
      responseBody (CreateMessageResult.raised e) =
        Option.some (Json.obj [("detail", Json.str e.detail)]) ∧
      isErrorEnvelope (Json.obj [("detail", Json.str e.detail)]) = false) := by
  constructor
  · intro status body h
    cases disconnected <;> cases stream <;>
      cases streamSetup <;> cases nonStreamCall <;>
      simp [create_message] at h <;>
      (rw [← h.2]; exact isErrorEnvelope_errorEnvelope _ _)
  · intro e h
    exact ⟨rfl, isErrorEnvelope_renderHTTPExc e⟩

/-- C1 witness: instantiating the amended theorem on the streaming-setup
failure path shows the envelope shape there. -/
theorem c1_witness :
    isErrorEnvelope (errorEnvelope "api_error" "Rate limit exceeded") = true :=
  (c1_error_envelope_amended (fun s => s) true false
      (CallOutcome.httpExc ⟨429, "Rate limit exceeded"⟩) CallOutcome.ok
      Json.null).1
    429 (errorEnvelope "api_error" "Rate limit exceeded") rfl

/-- C2 counterexample: `count_tokens` surfaces `str(e)` verbatim as the
detail of its 500 error, and `test_connection` places `str(e)` verbatim
in the `message` field of its 503 body — raw internal exception text
crosses the request boundary. -/
theorem c2_counterexample :
    count_tokens_handler ⟨Option.none, []⟩
        (Option.some "ZeroDivisionError: division by zero") =
      Sum.inl ⟨500, "ZeroDivisionError: division by zero"⟩ ∧
    messageField (test_connection_error_body
        "Connection error: [Errno 111] Connection refused"
        "2026-10-12T00:00:00") =
      Option.some (Json.str "Connection error: [Errno 111] Connection refused") :=
  ⟨rfl, rfl⟩

/-- C2 (amended): `/v1/messages` passes a generic exception's text
through `classify_openai_error` before surfacing it, but `count_tokens`
and the connectivity test surface the raw exception text `str(e)`
verbatim (stack traces are written only to the log, not to any
response). -/
theorem c2_raw_exception_text (excText timestamp : String)
    (req : TokenCountRequest) :
    count_tokens_handler req (Option.some excText) = Sum.inl ⟨500, excText⟩ ∧
    messageField (test_connection_error_body excText timestamp) =
      Option.some (Json.str excText) ∧
    (∀ (classify : String → String) (stream : Bool) (claudeBody : Json)
        (m : String),
      create_message classify stream false (CallOutcome.exc m)
          (CallOutcome.exc m) claudeBody =
        CreateMessageResult.raised ⟨500, classify m⟩) := by
  refine ⟨rfl, rfl, ?_⟩
  intro classify stream claudeBody m
  cases stream <;> rfl

/-- C3 counterexample: a 429 rate-limit failure on the streaming path is
returned as an envelope whose `error.type` is the constant
`"api_error"`, not the classified kind `"rate_limit"`. -/
theorem c3_counterexample :
    create_message (fun s => s) true false
        (CallOutcome.httpExc ⟨429, "Rate limit exceeded"⟩) CallOutcome.ok
        Json.null =
      CreateMessageResult.jsonError 429
        (errorEnvelope "api_error" "Rate limit exceeded") ∧
    "api_error" ≠ "rate_limit" :=
  ⟨rfl, by decide⟩

/-- C3 (amended): every error envelope `create_message` returns carries
the fixed constant `"api_error"` in its `error.type` field, whatever the
backend status; the classification result appears only in the message
text. -/
theorem c3_error_type_is_constant (classify : String → String)
    (stream disconnected : Bool) (streamSetup nonStreamCall : CallOutcome)
    (claudeBody : Json) (status : Nat) (body : Json)
    (h : create_message classify stream disconnected streamSetup nonStreamCall
        claudeBody = CreateMessageResult.jsonError status body) :
    ∃ e : HTTPExc, streamSetup = CallOutcome.httpExc e ∧
      status = e.status_code ∧
      body = errorEnvelope "api_error" (classify e.detail) := by
  cases disconnected <;> cases stream <;>
    cases streamSetup <;> cases nonStreamCall <;>
    simp [create_message] at h <;>
    exact ⟨_, rfl, h.1.symm, h.2.symm⟩

/-- C3 witness: the amended theorem applied to the concrete 429
failure. -/
theorem c3_witness :
    ∃ e : HTTPExc,
      CallOutcome.httpExc ⟨429, "Rate limit exceeded"⟩ =
        CallOutcome.httpExc e ∧
      429 = e.status_code ∧
      errorEnvelope "api_error" "Rate limit exceeded" =
        errorEnvelope "api_error" e.detail :=
  c3_error_type_is_constant (fun s => s) true false
    (CallOutcome.httpExc ⟨429, "Rate limit exceeded"⟩) CallOutcome.ok Json.null
    429 (errorEnvelope "api_error" "Rate limit exceeded") rfl

/-- C4 counterexample: when the client has already disconnected, the
handler does not exit silently — it raises `HTTPException(499, "Client
disconnected")`, so a response body `{"detail": "Client disconnected"}`
is produced. -/
theorem c4_counterexample :
    create_message (fun s => s) false true CallOutcome.ok CallOutcome.ok
        Json.null =
      CreateMessageResult.raised ⟨499, "Client disconnected"⟩ ∧
    responseBody (create_message (fun s => s) false true CallOutcome.ok
        CallOutcome.ok Json.null) =
      Option.some (Json.obj [("detail", Json.str "Client disconnected")]) ∧
    responseBody (create_message (fun s => s) false true CallOutcome.ok
        CallOutcome.ok Json.null) ≠ Option.none := by
  refine ⟨rfl, rfl, ?_⟩
  intro h
  simp [create_message, responseBody] at h

/-- C4 (amended): for every `/v1/messages` request whose client has
already disconnected when processing begins, `create_message` aborts the
work by raising `HTTPException(499, "Client disconnected")` — a response
body `{"detail": "Client disconnected"}` — rather than exiting
silently with no response payload. -/
theorem c4_disconnect_amended (classify : String → String) (stream : Bool)
    (streamSetup nonStreamCall : CallOutcome) (claudeBody : Json) :
    create_message classify stream true streamSetup nonStreamCall claudeBody =
      CreateMessageResult.raised ⟨499, "Client disconnected"⟩ ∧
    responseBody (create_message classify stream true streamSetup nonStreamCall
        claudeBody) =
      Option.some (Json.obj [("detail", Json.str "Client disconnected")]) :=
  ⟨rfl, rfl⟩

/-- C10 counterexample: with `ANTHROPIC_API_KEY = "k"`, no `x-api-key`
header and `Authorization: Bearer kBearer `, the code accepts the request
(its replace-all extraction yields `"k"`), although the value after the
`"Bearer "` prefix is `"kBearer "`, which differs from `"k"`, so the
claim's rule would raise a 401. -/
theorem c10_counterexample :
    validate_api_key (Option.some "k") Option.none
        (Option.some "Bearer kBearer ") = AuthResult.ok ∧
    extractClientKeySpec Option.none (Option.some "Bearer kBearer ") =
      Option.some "kBearer " ∧
    "kBearer " ≠ "k" :=
  ⟨by decide, by decide, by decide⟩

/-- C10 (amended): `validate_api_key` raises the 401 error iff
`config.anthropic_api_key` is set and non-empty and the extracted client
key — the `x-api-key` header if truthy, otherwise
`authorization.replace("Bearer ", "")` (replace-all, not
suffix-after-prefix) when `Authorization` starts with `"Bearer "` — is
falsy or not exactly equal to it; when `anthropic_api_key` is unset,
every request is accepted. -/
theorem c10_validate_amended (anthropicKey xApiKey authorization : Option String) :
    (truthy anthropicKey = false →
      validate_api_key anthropicKey xApiKey authorization = AuthResult.ok) ∧
    (truthy anthropicKey = true →
      (validate_api_key anthropicKey xApiKey authorization =
          AuthResult.raised
            ⟨401, "Invalid API key. Please provide a valid Anthropic API key."⟩ ↔
        truthy (extractClientKey xApiKey authorization) = false ∨
          (extractClientKey xApiKey authorization).getD "" ≠
            anthropicKey.getD "")) := by
  constructor
  · intro h
    simp [validate_api_key, h]
  · intro h
    by_cases hc1 : truthy (extractClientKey xApiKey authorization) = true
    · by_cases hc2 : (extractClientKey xApiKey authorization).getD "" =
          anthropicKey.getD ""
      · simp [validate_api_key, validate_client_api_key, h, hc1, hc2]
      · simp [validate_api_key, validate_client_api_key, h, hc1, hc2]
    · have hc1f : truthy (extractClientKey xApiKey authorization) = false := by
        revert hc1; cases truthy (extractClientKey xApiKey authorization) <;> simp
      simp [validate_api_key, validate_client_api_key, h, hc1f]

/-- C10 witness: with `anthropic_api_key` unset, a request with any
credentials is accepted; with it set to `"k"` and a wrong bearer key,
the 401 is raised. -/
theorem c10_witness :
    validate_api_key Option.none (Option.some "anything") Option.none =
      AuthResult.ok ∧
    validate_api_key (Option.some "k") Option.none
        (Option.some "Bearer wrong") =
      AuthResult.raised
        ⟨401, "Invalid API key. Please provide a valid Anthropic API key."⟩ :=
  ⟨(c10_validate_amended Option.none (Option.some "anything") Option.none).1 rfl,
   ((c10_validate_amended (Option.some "k") Option.none
       (Option.some "Bearer wrong")).2 rfl).2 (by decide)⟩

end Proxy
